import Mathlib

/-!
Shallow embedding of the core logic of `GoogleMaps.py` (mock places app):
the random-id generator, the coordinate jitter sampler, the mock record
synthesizer, the click resolver, the upsert into the `places` table, and
the `load_all` post-processing of `has_website`.

Python floats are modelled as real numbers; SQL NULL / Python None as
`Option`.  Every call to the `random` module is modelled by an explicit
oracle value handed to the function (one `Draw` per generated record),
with the range contracts of the `random` primitives stated as hypotheses
where a claim depends on them.
-/

/-- A place record as assembled by `mock_generate_places`
    (`src/GoogleMaps.py` lines 164-178). -/
structure Place where
  place_id : String
  name : String
  industry : String
  address : String
  lat : Real
  lng : Real
  types : String
  rating : Real
  user_ratings_total : Nat
  phone : String
  website : Option String
  has_website : Nat
  fetched_at : String

/-- The outputs of the `random` module consumed while synthesizing one
    record, in source order (`src/GoogleMaps.py` lines 148-166):
    `industryPick` models the index drawn by `random.choice(industries)`;
    `u1`, `u2` the two `random.random()` calls inside `jitter_latlng`;
    `typeSample` the list returned by `random.sample(type_pool, k)`;
    `ratingU` the value of `random.uniform(3.2, 4.9)`;
    `ratingsTotal` `random.randint(5, 1200)`;
    `modifierPick`, `suffixPick`, `streetPick` the indices drawn by the
    three `random.choice` calls in the name/address;
    `houseNum` `random.randint(1, 220)`; `phoneNum` `random.randint(100000, 999999)`;
    `websiteRoll` `random.randint(1, 100)`; `urlNum` `random.randint(10, 999)`;
    `idTail` the 20 characters drawn by `random.choices` in `random_id`. -/
structure Draw where
  industryPick : Nat
  u1 : Real
  u2 : Real
  typeSample : List String
  ratingU : Real
  ratingsTotal : Nat
  modifierPick : Nat
  suffixPick : Nat
  streetPick : Nat
  houseNum : Nat
  phoneNum : Nat
  websiteRoll : Nat
  urlNum : Nat
  idTail : List Char

/-- The population handed to `random.choices` in `random_id`
    (`string.ascii_lowercase + string.digits`). -/
def idAlphabet : List Char := "abcdefghijklmnopqrstuvwxyz0123456789".toList

/-- `random_id(prefix="mock")` (`src/GoogleMaps.py` lines 126-128): joins the
    drawn characters and formats `f"{prefix}_{tail}"`.  The 20 drawn
    characters are the explicit argument `tail`. -/
def random_id (pre : String) (tail : List Char) : String :=
  pre ++ "_" ++ String.mk tail

/-- The longitude denominator of `jitter_latlng`
    (`src/GoogleMaps.py` line 136): `111_000.0 * max(0.2, cos(radians(center_lat)))`. -/
noncomputable def lngDenom (center_lat : Real) : Real :=
  111000 * max 0.2 (Real.cos (center_lat * Real.pi / 180))

/-- `jitter_latlng(center_lat, center_lng, radius_m)`
    (`src/GoogleMaps.py` lines 130-137).  `u1` and `u2` are the two
    `random.random()` results, in call order. -/
noncomputable def jitter_latlng (center_lat center_lng radius_m u1 u2 : Real) : Real × Real :=
  let r := radius_m * Real.sqrt u1
  let theta := u2 * 2 * Real.pi
  let dx := r * Real.cos theta
  let dy := r * Real.sin theta
  let dlat := dy / 111000
  let dlng := dx / lngDenom center_lat
  (center_lat + dlat, center_lng + dlng)

/-- Python `round(x, 1)` as used for the rating (tie behaviour immaterial
    here; Python rounds ties to even, we use the Lean `round`). -/
noncomputable def round1 (x : Real) : Real := ((round (x * 10) : Int) : Real) / 10

/-- `round(x, 6)` as used by `find_clicked_place` on both the clicked and
    the stored coordinates (tie behaviour immaterial for the claims). -/
noncomputable def round6 (x : Real) : Real := ((round (x * 1000000) : Int) : Real) / 1000000

/-- The `type_pool` literal (`src/GoogleMaps.py` lines 140-143). -/
def type_pool : List String :=
  ["accounting", "restaurant", "electrician", "plumber", "real_estate_agency",
   "dentist", "lawyer", "hair_care", "gym", "store", "car_repair"]

/-- The `street_pool` literal (`src/GoogleMaps.py` line 144). -/
def street_pool : List String :=
  ["Hauptstraße", "Bahnhofstraße", "Herrengasse", "Annenstraße", "Keplerstraße",
   "Grieskai", "Idlhofgasse"]

/-- The `suffix_pool` literal (`src/GoogleMaps.py` line 145). -/
def suffix_pool : List String := ["GmbH", "OG", "KG", "e.U.", "AG"]

/-- The name-modifier pool (`src/GoogleMaps.py` line 155). -/
def modifier_pool : List String := ["Plus", "Pro", "Center", "Studio", "Service", "Partner"]

/-- The body of the `for` loop in `mock_generate_places`
    (`src/GoogleMaps.py` lines 148-178), producing one record from one
    bundle of random draws.  `random.choice(pool)` is modelled as
    `pool.getD (pick % pool.length) dflt`: for any in-range pick this is
    exactly the picked element; the `"Firma"` fallback is the
    source's `if industries else "Firma"`.  `now` models
    `datetime.utcnow().isoformat(timespec="seconds")`. -/
noncomputable def mock_place (location_label : String) (center_lat center_lng radius_m : Real)
    (industries : List String) (pct_with_website : Nat) (now : String) (d : Draw) : Place :=
  let industry := if industries.isEmpty then ("Firma")
    else industries.getD (d.industryPick % industries.length) ("Firma")
  let ll := jitter_latlng center_lat center_lng radius_m d.u1 d.u2
  let t := d.typeSample
  let rating := round1 d.ratingU
  let name := industry ++ " " ++ modifier_pool.getD (d.modifierPick % modifier_pool.length) ("")
    ++ " " ++ suffix_pool.getD (d.suffixPick % suffix_pool.length) ("")
  let address := street_pool.getD (d.streetPick % street_pool.length) ("") ++ " "
    ++ toString d.houseNum ++ ", " ++ location_label
  let phone := "+43 316 " ++ toString d.phoneNum
  let has_site := d.websiteRoll ≤ pct_with_website
  let website := if has_site then
      some ("https://" ++ (String.replace (String.toLower industry) (" ") ("-"))
        ++ "-" ++ toString d.urlNum ++ ".example.com")
    else none
  { place_id := random_id ("mock") d.idTail
    name := name
    industry := industry
    address := address
    lat := ll.1
    lng := ll.2
    types := String.intercalate (",") t
    rating := rating
    user_ratings_total := d.ratingsTotal
    phone := phone
    website := website
    has_website := if has_site then 1 else 0
    fetched_at := now ++ "Z" }

/-- `mock_generate_places(location_label, center_lat, center_lng, radius_m,
    industries, n, pct_with_website)` (`src/GoogleMaps.py` lines 139-179):
    `n` loop iterations, the i-th consuming the draw bundle `draws i`. -/
noncomputable def mock_generate_places (location_label : String)
    (center_lat center_lng radius_m : Real) (industries : List String) (n : Nat)
    (pct_with_website : Nat) (draws : Nat → Draw) (now : String) : List Place :=
  (List.range n).map fun i =>
    mock_place location_label center_lat center_lng radius_m industries pct_with_website now
      (draws i)

/-- `find_clicked_place(df, lat, lng)` (`src/GoogleMaps.py` lines 181-192):
    empty frame gives `None`; otherwise both the query and every stored
    coordinate are rounded to 6 decimals and the first row matching on both
    axes is returned (`hit.iloc[0]`), else `None`.  The dataframe is
    modelled as the list of its rows in order. -/
noncomputable def find_clicked_place (df : List Place) (lat lng : Real) : Option Place :=
  if df.isEmpty then none
  else
    df.find? fun p => decide (round6 p.lat = round6 lat) && decide (round6 p.lng = round6 lng)

/-- The rounded-coordinate match used by `find_clicked_place`, as a
    proposition. -/
def coordMatches (lat lng : Real) (p : Place) : Prop :=
  round6 p.lat = round6 lat ∧ round6 p.lng = round6 lng

/-- A row of the `places` table (`src/GoogleMaps.py` lines 51-74):
    every column except the key is nullable. -/
structure DBRow where
  place_id : String
  name : Option String
  industry : Option String
  address : Option String
  lat : Option Real
  lng : Option Real
  types : Option String
  rating : Option Real
  user_ratings_total : Option Nat
  phone : Option String
  website : Option String
  has_website : Option Nat
  fetched_at : Option String

/-- `upsert_place(con, row)` (`src/GoogleMaps.py` lines 84-110):
    `INSERT ... ON CONFLICT(place_id) DO UPDATE SET` every non-key column to
    the excluded row's value.  The table is modelled as its list of rows in
    rowid order: a conflicting key updates the row in place, otherwise the
    new row is appended. -/
def upsert_place (db : List DBRow) (row : DBRow) : List DBRow :=
  if db.any (fun r => r.place_id == row.place_id) then
    db.map (fun r => if r.place_id == row.place_id then row else r)
  else db ++ [row]

/-- `load_all(con)` (`src/GoogleMaps.py` lines 112-121): rows whose
    `has_website` is NULL get it recomputed as `website.notna()`
    (`fillna(df["website"].notna().astype(int))`); all other fields pass
    through.  The `ORDER BY fetched_at DESC` only permutes the rows and no
    claim depends on the order, so the query order is kept as stored;
    post-migration the `industry` and `has_website` columns always exist,
    so only the `fillna` branch is live. -/
def load_all (rows : List DBRow) : List DBRow :=
  rows.map fun r =>
    { r with has_website := some (r.has_website.getD (if r.website.isSome then 1 else 0)) }

/-- `has_website`/`website` consistency for a table row: flag 1 with a
    non-empty website string, or flag 0 with no website. -/
def dbRowConsistent (r : DBRow) : Prop :=
  (r.has_website = some 1 ∧ ∃ s, r.website = some s ∧ s ≠ "") ∨
    (r.has_website = some 0 ∧ r.website = none)

/-- A legacy row from before the `has_website` migration: flag still NULL,
    website absent or a non-empty string (the program never stores `""`). -/
def dbRowLegacy (r : DBRow) : Prop :=
  r.has_website = none ∧ (r.website = none ∨ ∃ s, r.website = some s ∧ s ≠ "")

/-- Modelled from the spec: the great-circle distance (in meters) between
    two latitude/longitude coordinates given in degrees, by the haversine
    formula on a sphere of mean Earth radius 6 371 000 m.  The spec's
    Testable Properties section bounds `sample_point` by this distance; the
    source contains no distance function, only the degree conversion
    constants inside `jitter_latlng`. -/
noncomputable def gcDist (lat1 lng1 lat2 lng2 : Real) : Real :=
  let phi1 := lat1 * Real.pi / 180
  let phi2 := lat2 * Real.pi / 180
  let dphi := phi2 - phi1
  let dlam := (lng2 - lng1) * Real.pi / 180
  let hav := Real.sin (dphi / 2) ^ 2 +
    Real.cos phi1 * Real.cos phi2 * Real.sin (dlam / 2) ^ 2
  2 * 6371000 * Real.arcsin (Real.sqrt hav)

/-- The sampler's own flat metric: the distance (in meters) that
    `jitter_latlng`'s conversion constants assign to a pair of coordinate
    offsets from the center, `111 000 m` per degree of latitude and
    `lngDenom center_lat` meters per degree of longitude. -/
noncomputable def flatDist (center_lat : Real) (a b : Real × Real) : Real :=
  Real.sqrt (((b.1 - a.1) * 111000) ^ 2 + ((b.2 - a.2) * lngDenom center_lat) ^ 2)

/-- A concrete bundle of in-range random draws, used to instantiate the
    theorems below on explicit inputs. -/
noncomputable def d0 : Draw :=
  { industryPick := 0
    u1 := 0
    u2 := 0
    typeSample := []
    ratingU := 0
    ratingsTotal := 5
    modifierPick := 0
    suffixPick := 0
    streetPick := 0
    houseNum := 1
    phoneNum := 100000
    websiteRoll := 1
    urlNum := 10
    idTail := List.replicate 20 'a' }

/-- A second concrete draw bundle whose id tail differs from `d0`. -/
noncomputable def d1 : Draw :=
  { industryPick := 0
    u1 := 0
    u2 := 0
    typeSample := []
    ratingU := 0
    ratingsTotal := 5
    modifierPick := 0
    suffixPick := 0
    streetPick := 0
    houseNum := 1
    phoneNum := 100000
    websiteRoll := 1
    urlNum := 10
    idTail := List.replicate 20 'b' }

/-- A throwaway default record for positional access via `List.getD`. -/
noncomputable def junkPlace : Place :=
  { place_id := ""
    name := ""
    industry := ""
    address := ""
    lat := 0
    lng := 0
    types := ""
    rating := 0
    user_ratings_total := 0
    phone := ""
    website := none
    has_website := 0
    fetched_at := "" }

/-- A concrete legacy table row: `has_website` still NULL, no website. -/
def row0 : DBRow :=
  ⟨"x1", none, none, none, none, none, none, none, none, none, none, none, none⟩

/-- A concrete table row keyed `a`. -/
def rowA : DBRow :=
  ⟨"a", some ("A GmbH"), none, none, none, none, none, none, none, none, none, some 0, none⟩

/-- A concrete table row keyed `b`. -/
def rowB : DBRow :=
  ⟨"b", some ("B GmbH"), none, none, none, none, none, none, none, none, none, some 0, none⟩

/-- A second row keyed `b` with a different payload, conflicting with `rowB`. -/
def rowB2 : DBRow :=
  ⟨"b", some ("B neu GmbH"), some ("Friseur"), none, none, none, none, none, none, none,
    some ("https://b.example.com"), some 1, none⟩

/-! ### Helper lemmas -/

theorem jitter_latlng_zero (a b u v : Real) : jitter_latlng a b 0 u v = (a, b) := by
  unfold jitter_latlng
  simp

theorem lngDenom_ge_floor (lat : Real) : (22200 : Real) ≤ lngDenom lat := by
  unfold lngDenom
  have h : (0.2 : Real) ≤ max 0.2 (Real.cos (lat * Real.pi / 180)) := le_max_left _ _
  nlinarith

theorem lngDenom_pos (lat : Real) : (0 : Real) < lngDenom lat :=
  lt_of_lt_of_le (by norm_num) (lngDenom_ge_floor lat)

/-! ### Claims C5 and C6 -/

/-- Claim C5: for every center latitude, including values at or near ±90°,
    the longitude conversion in `jitter_latlng` divides only by
    `111000 * max(0.2, cos(radians(center_lat)))` (here `lngDenom`), a
    quantity never smaller than `0.2 * 111000`. -/
theorem jitter_divisor_floor (center_lat center_lng radius_m u1 u2 : Real) :
    (0.2 * 111000 : Real) ≤ lngDenom center_lat ∧
    (jitter_latlng center_lat center_lng radius_m u1 u2).2 =
      center_lng +
        radius_m * Real.sqrt u1 * Real.cos (u2 * 2 * Real.pi) / lngDenom center_lat := by
  constructor
  · have h := lngDenom_ge_floor center_lat
    norm_num
    linarith
  · rfl

/-- Claim C6: for every center coordinate and all random draws,
    `jitter_latlng` called with `radius_m = 0` returns exactly the center
    coordinate. -/
theorem jitter_radius_zero_returns_center (center_lat center_lng u1 u2 : Real) :
    jitter_latlng center_lat center_lng 0 u1 u2 = (center_lat, center_lng) :=
  jitter_latlng_zero center_lat center_lng u1 u2

/-! ### Claim C1 -/

/-- Claim C1: for every record list and clicked coordinate,
    `find_clicked_place` returns the first record in the provided ordering
    whose stored coordinates, rounded to 6 decimals, equal the rounded
    clicked coordinates on both axes; it returns `none` exactly when the
    record set is empty or no record matches after rounding. -/
theorem find_clicked_place_first_match (df : List Place) (lat lng : Real) :
    (∀ p, find_clicked_place df lat lng = some p ↔
      ∃ l1 l2, df = l1 ++ p :: l2 ∧ (∀ q ∈ l1, ¬ coordMatches lat lng q) ∧
        coordMatches lat lng p)
    ∧ (find_clicked_place df lat lng = none ↔
        (df = [] ∨ ∀ q ∈ df, ¬ coordMatches lat lng q)) := by
  have hbool : ∀ p : Place,
      ((decide (round6 p.lat = round6 lat) && decide (round6 p.lng = round6 lng)) = true)
        ↔ coordMatches lat lng p := by
    intro p
    simp [coordMatches, Bool.and_eq_true, decide_eq_true_eq]
  cases df with
  | nil =>
    constructor
    · intro p
      constructor
      · intro h
        simp [find_clicked_place] at h
      · rintro ⟨l1, l2, h, -, -⟩
        exact absurd h.symm (List.append_ne_nil_of_right_ne_nil l1 (List.cons_ne_nil p l2))
    · constructor
      · intro _
        exact Or.inl rfl
      · intro _
        rfl
  | cons a t =>
    have hfind : find_clicked_place (a :: t) lat lng =
        (a :: t).find? fun p =>
          decide (round6 p.lat = round6 lat) && decide (round6 p.lng = round6 lng) := rfl
    constructor
    · intro p
      rw [hfind, List.find?_eq_some]
      constructor
      · rintro ⟨hp, l1, l2, heq, hprev⟩
        refine ⟨l1, l2, heq, fun q hq hc => ?_, (hbool p).mp hp⟩
        have hq' := hprev q hq
        rw [← hbool q] at hc
        simp [hc] at hq'
      · rintro ⟨l1, l2, heq, hprev, hp⟩
        refine ⟨(hbool p).mpr hp, l1, l2, heq, fun q hq => ?_⟩
        have := hprev q hq
        rw [← hbool q] at this
        simp [Bool.not_eq_true] at this ⊢
        tauto
    · rw [hfind, List.find?_eq_none]
      constructor
      · intro h
        refine Or.inr fun q hq hc => ?_
        have := h q hq
        rw [← hbool q] at hc
        exact this hc
      · rintro (h | h)
        · exact absurd h (List.cons_ne_nil a t)
        · intro q hq hc
          exact h q hq ((hbool q).mp hc)

/-! ### Claim C4 -/

theorem jitter_latlng_fst (a b c u1 u2 : Real) : (jitter_latlng a b c u1 u2).1 =
    a + c * Real.sqrt u1 * Real.sin (u2 * 2 * Real.pi) / 111000 := rfl

theorem jitter_latlng_snd (a b c u1 u2 : Real) : (jitter_latlng a b c u1 u2).2 =
    b + c * Real.sqrt u1 * Real.cos (u2 * 2 * Real.pi) / lngDenom a := rfl

theorem gcDist_def (lat1 lng1 lat2 lng2 : Real) : gcDist lat1 lng1 lat2 lng2 =
    2 * 6371000 * Real.arcsin (Real.sqrt
      (Real.sin ((lat2 * Real.pi / 180 - lat1 * Real.pi / 180) / 2) ^ 2 +
        Real.cos (lat1 * Real.pi / 180) * Real.cos (lat2 * Real.pi / 180) *
          Real.sin ((lng2 - lng1) * Real.pi / 180 / 2) ^ 2)) := rfl

/-- On a meridian through the origin with a small nonnegative latitude
    offset, the haversine distance is exactly the arc `R * Δφ`. -/
theorem gcDist_meridian (lat2 : Real) (h0 : 0 ≤ lat2)
    (h2 : lat2 * Real.pi / 180 / 2 ≤ Real.pi / 2) :
    gcDist 0 0 lat2 0 = 2 * 6371000 * (lat2 * Real.pi / 180 / 2) := by
  rw [gcDist_def]
  simp only [zero_mul, zero_div, sub_zero, Real.cos_zero, Real.sin_zero, one_mul, mul_zero,
    add_zero, zero_sub, neg_zero, ne_eq, OfNat.ofNat_ne_zero, not_false_eq_true, zero_pow]
  have hp0 : 0 ≤ lat2 * Real.pi / 180 / 2 := by positivity
  have hsin : 0 ≤ Real.sin (lat2 * Real.pi / 180 / 2) :=
    Real.sin_nonneg_of_nonneg_of_le_pi hp0 (le_trans h2 (by linarith [Real.pi_pos]))
  rw [Real.sqrt_sq hsin, Real.arcsin_sin (by linarith [Real.pi_pos]) h2]

/-- The jittered point sits at planar offset magnitude exactly
    `radius_m * sqrt u1` in the sampler's own metric. -/
theorem flatDist_jitter (a b c u1 u2 : Real) (h : 0 ≤ c * Real.sqrt u1) :
    flatDist a (a, b) (jitter_latlng a b c u1 u2) = c * Real.sqrt u1 := by
  have hDne : lngDenom a ≠ 0 := ne_of_gt (lngDenom_pos a)
  unfold flatDist
  rw [jitter_latlng_fst, jitter_latlng_snd]
  have e1 : (a + c * Real.sqrt u1 * Real.sin (u2 * 2 * Real.pi) / 111000 - a) * 111000 =
      c * Real.sqrt u1 * Real.sin (u2 * 2 * Real.pi) := by
    field_simp
    ring
  have e2 : (b + c * Real.sqrt u1 * Real.cos (u2 * 2 * Real.pi) / lngDenom a - b) * lngDenom a =
      c * Real.sqrt u1 * Real.cos (u2 * 2 * Real.pi) := by
    field_simp
    ring
  rw [e1, e2]
  have e3 : (c * Real.sqrt u1 * Real.sin (u2 * 2 * Real.pi)) ^ 2 +
      (c * Real.sqrt u1 * Real.cos (u2 * 2 * Real.pi)) ^ 2 = (c * Real.sqrt u1) ^ 2 := by
    have ht := Real.sin_sq_add_cos_sq (u2 * 2 * Real.pi)
    nlinarith [ht]
  rw [e3, Real.sqrt_sq h]

/-- Claim C4 (amended): for every center, every `radius_m ≥ 0` and every
    draw `u1 ∈ [0, 1]`, the point returned by `jitter_latlng` lies within
    `radius_m` of the center in the sampler's own flat metric (111000 m per
    degree latitude, `lngDenom` meters per degree longitude); its
    great-circle distance can exceed `radius_m` by a fixed ≈0.18 % because
    111000 underestimates the ≈111195 m arc of one degree. -/
theorem jitter_within_radius_flat (center_lat center_lng radius_m u1 u2 : Real)
    (hr : 0 ≤ radius_m) (h0 : 0 ≤ u1) (h1 : u1 ≤ 1) :
    flatDist center_lat (center_lat, center_lng)
      (jitter_latlng center_lat center_lng radius_m u1 u2) ≤ radius_m := by
  rw [flatDist_jitter center_lat center_lng radius_m u1 u2
    (mul_nonneg hr (Real.sqrt_nonneg u1))]
  nlinarith [Real.sqrt_nonneg u1, Real.sqrt_le_one.mpr h1]

theorem jitter_within_radius_flat_witness :
    (0 : Real) ≤ 5000 ∧ (0 : Real) ≤ 1/4 ∧ (1/4 : Real) ≤ 1 ∧
    flatDist 47.0707 (47.0707, 15.4395) (jitter_latlng 47.0707 15.4395 5000 (1/4) 0) ≤ 5000 :=
  ⟨by norm_num, by norm_num, by norm_num,
    jitter_within_radius_flat 47.0707 15.4395 5000 (1/4) 0 (by norm_num) (by norm_num)
      (by norm_num)⟩

/-- Claim C4 counterexample: at center (0, 0) with the in-range draws
    `radius_m = 5000`, `u1 = 0.999` (so `r ≈ 4997.5 m`) and `u2 = 1/4`
    (so `theta = pi / 2`, a due-north offset), the sampled point's
    great-circle distance from the center is ≈5005.8 m > 5000 m: the
    claimed bound fails by ≈ 0.12 %, far beyond floating-point tolerance. -/
theorem jitter_gc_distance_exceeds_radius :
    (0 : Real) ≤ 5000 ∧ (0 : Real) ≤ 999/1000 ∧ (999/1000 : Real) < 1 ∧
    5000 < gcDist 0 0 (jitter_latlng 0 0 5000 (999/1000) (1/4)).1
      (jitter_latlng 0 0 5000 (999/1000) (1/4)).2 := by
  refine ⟨by norm_num, by norm_num, by norm_num, ?_⟩
  have hθ : (1/4 : Real) * 2 * Real.pi = Real.pi / 2 := by ring
  have h1 : (jitter_latlng 0 0 5000 (999/1000) (1/4)).1 =
      5000 * Real.sqrt (999/1000) / 111000 := by
    rw [jitter_latlng_fst, hθ, Real.sin_pi_div_two]
    ring
  have h2 : (jitter_latlng 0 0 5000 (999/1000) (1/4)).2 = 0 := by
    rw [jitter_latlng_snd, hθ, Real.cos_pi_div_two]
    simp
  rw [h1, h2]
  have hq0 : (0 : Real) ≤ Real.sqrt (999/1000) := Real.sqrt_nonneg _
  have hq1 : Real.sqrt (999/1000) ≤ 1 := Real.sqrt_le_one.mpr (by norm_num)
  have hql : (0.9994 : Real) ≤ Real.sqrt (999/1000) := by
    have h := Real.sqrt_le_sqrt (show ((0.9994 : Real)) ^ 2 ≤ 999/1000 by norm_num)
    rwa [Real.sqrt_sq (by norm_num : (0 : Real) ≤ 0.9994)] at h
  have hlat0 : (0 : Real) ≤ 5000 * Real.sqrt (999/1000) / 111000 := by positivity
  have hlat1 : 5000 * Real.sqrt (999/1000) / 111000 ≤ 1 := by nlinarith [hq1]
  have hhalf : 5000 * Real.sqrt (999/1000) / 111000 * Real.pi / 180 / 2 ≤ Real.pi / 2 := by
    nlinarith [mul_le_mul_of_nonneg_right hlat1 Real.pi_pos.le, Real.pi_pos]
  rw [gcDist_meridian (5000 * Real.sqrt (999/1000) / 111000) hlat0 hhalf]
  have hprod : (0.9994 : Real) * 3.141592 ≤ Real.sqrt (999/1000) * Real.pi := by
    nlinarith [hql, Real.pi_gt_d6, hq0, Real.pi_pos]
  nlinarith [hprod]

/-! ### Projection helpers for `mock_place` -/

theorem mock_place_place_id (lbl : String) (a b c : Real) (inds : List String) (pct : Nat)
    (now : String) (d : Draw) :
    (mock_place lbl a b c inds pct now d).place_id = random_id ("mock") d.idTail := rfl

theorem mock_place_lat (lbl : String) (a b c : Real) (inds : List String) (pct : Nat)
    (now : String) (d : Draw) :
    (mock_place lbl a b c inds pct now d).lat = (jitter_latlng a b c d.u1 d.u2).1 := rfl

theorem mock_place_lng (lbl : String) (a b c : Real) (inds : List String) (pct : Nat)
    (now : String) (d : Draw) :
    (mock_place lbl a b c inds pct now d).lng = (jitter_latlng a b c d.u1 d.u2).2 := rfl

theorem mock_place_has_website (lbl : String) (a b c : Real) (inds : List String) (pct : Nat)
    (now : String) (d : Draw) :
    (mock_place lbl a b c inds pct now d).has_website =
      if d.websiteRoll ≤ pct then 1 else 0 := rfl

theorem mock_place_website (lbl : String) (a b c : Real) (inds : List String) (pct : Nat)
    (now : String) (d : Draw) :
    (mock_place lbl a b c inds pct now d).website =
      if d.websiteRoll ≤ pct then
        some ("https://" ++
          (String.replace (String.toLower (if inds.isEmpty then ("Firma")
            else inds.getD (d.industryPick % inds.length) ("Firma"))) (" ") ("-"))
          ++ "-" ++ toString d.urlNum ++ ".example.com")
      else none := rfl

/-! ### Claim C7 -/

/-- Claim C7: generating exactly one record at center (47.0707, 15.4395)
    with radius 0 yields a record whose coordinates equal the center
    exactly, and `find_clicked_place` on that record set with the center as
    the clicked coordinate returns that record. -/
theorem generate_resolve_roundtrip (lbl : String) (inds : List String) (pct : Nat)
    (draws : Nat → Draw) (now : String) :
    ∃ p, mock_generate_places lbl 47.0707 15.4395 0 inds 1 pct draws now = [p] ∧
      p.lat = 47.0707 ∧ p.lng = 15.4395 ∧
      find_clicked_place (mock_generate_places lbl 47.0707 15.4395 0 inds 1 pct draws now)
        47.0707 15.4395 = some p := by
  have hlist : mock_generate_places lbl 47.0707 15.4395 0 inds 1 pct draws now =
      [mock_place lbl 47.0707 15.4395 0 inds pct now (draws 0)] := rfl
  have hlat : (mock_place lbl 47.0707 15.4395 0 inds pct now (draws 0)).lat = 47.0707 := by
    rw [mock_place_lat, jitter_latlng_zero]
  have hlng : (mock_place lbl 47.0707 15.4395 0 inds pct now (draws 0)).lng = 15.4395 := by
    rw [mock_place_lng, jitter_latlng_zero]
  refine ⟨mock_place lbl 47.0707 15.4395 0 inds pct now (draws 0), hlist, hlat, hlng, ?_⟩
  rw [hlist]
  have hstep : find_clicked_place [mock_place lbl 47.0707 15.4395 0 inds pct now (draws 0)]
      47.0707 15.4395 =
      List.find? (fun q => decide (round6 q.lat = round6 (47.0707 : Real)) &&
          decide (round6 q.lng = round6 (15.4395 : Real)))
        [mock_place lbl 47.0707 15.4395 0 inds pct now (draws 0)] := rfl
  rw [hstep]
  apply List.find?_cons_of_pos
  simp [hlat, hlng]

/-! ### Claim C2 -/

theorem random_id_tail_inj (pre : String) (t1 t2 : List Char)
    (h : random_id pre t1 = random_id pre t2) : t1 = t2 := by
  unfold random_id at h
  have h2 := congrArg String.data h
  simp only [String.data_append, List.append_assoc] at h2
  exact List.append_cancel_left (List.append_cancel_left h2)

/-- Claim C2 (amended): for every parameter set and all random draws,
    `mock_generate_places` returns exactly `n` records; and whenever the
    drawn 20-character id tails of distinct iterations differ — which
    `random.choices` does not guarantee, only makes overwhelmingly likely —
    any two distinct records have different `place_id` values. -/
theorem mock_count_and_distinct_ids (lbl : String) (clat clng radius : Real)
    (inds : List String) (n pct : Nat) (draws : Nat → Draw) (now : String) :
    (mock_generate_places lbl clat clng radius inds n pct draws now).length = n ∧
    ((∀ i j, i < j → j < n → (draws i).idTail ≠ (draws j).idTail) →
      (mock_generate_places lbl clat clng radius inds n pct draws now).Pairwise
        (fun p q => p.place_id ≠ q.place_id)) := by
  constructor
  · simp [mock_generate_places]
  · intro h
    unfold mock_generate_places
    rw [List.pairwise_map]
    refine (List.pairwise_lt_range n).imp_of_mem ?_
    intro i j hi hj hij
    rw [mock_place_place_id, mock_place_place_id]
    intro heq
    exact h i j hij (List.mem_range.mp hj) (random_id_tail_inj _ _ _ heq)

theorem mock_count_and_distinct_ids_witness :
    (∀ i j, i < j → j < 2 →
      (((fun k => if k = 0 then d0 else d1) : Nat → Draw) i).idTail ≠
        ((fun k => if k = 0 then d0 else d1) j).idTail) ∧
    (mock_generate_places ("G") 0 0 0 ([]) 2 0 (fun k => if k = 0 then d0 else d1)
      ("t")).length = 2 ∧
    (mock_generate_places ("G") 0 0 0 ([]) 2 0 (fun k => if k = 0 then d0 else d1)
      ("t")).Pairwise (fun p q => p.place_id ≠ q.place_id) := by
  have hd : ∀ i j, i < j → j < 2 →
      (((fun k => if k = 0 then d0 else d1) : Nat → Draw) i).idTail ≠
        ((fun k => if k = 0 then d0 else d1) j).idTail := by
    intro i j hij hj
    have hj1 : j = 1 := by omega
    have hi0 : i = 0 := by omega
    subst hj1
    subst hi0
    show d0.idTail ≠ d1.idTail
    decide
  have hmain := mock_count_and_distinct_ids ("G") 0 0 0 ([]) 2 0
    (fun k => if k = 0 then d0 else d1) ("t")
  exact ⟨hd, hmain.1, hmain.2 hd⟩

/-- Claim C2 counterexample: with two iterations whose draws are identical
    — an outcome `random.choices` permits — the two generated records are
    distinct positions of the output but share one `place_id`, so the
    distinctness half of the claim fails for some random draws. -/
theorem mock_id_collision :
    (mock_generate_places ("L") 0 0 0 ([]) 2 0 (fun _ => d0) ("t")).length = 2 ∧
    ((mock_generate_places ("L") 0 0 0 ([]) 2 0 (fun _ => d0) ("t")).getD 0 junkPlace).place_id =
      ((mock_generate_places ("L") 0 0 0 ([]) 2 0 (fun _ => d0) ("t")).getD 1 junkPlace).place_id ∧
    ¬ (mock_generate_places ("L") 0 0 0 ([]) 2 0 (fun _ => d0) ("t")).Pairwise
        (fun p q => p.place_id ≠ q.place_id) := by
  refine ⟨rfl, rfl, ?_⟩
  intro hpw
  have hlist : mock_generate_places ("L") 0 0 0 ([]) 2 0 (fun _ => d0) ("t") =
      [mock_place ("L") 0 0 0 ([]) 0 ("t") d0, mock_place ("L") 0 0 0 ([]) 0 ("t") d0] := rfl
  rw [hlist] at hpw
  rcases List.pairwise_cons.mp hpw with ⟨hne, -⟩
  exact hne _ (List.mem_singleton.mpr rfl) rfl

/-! ### Claim C3 -/

theorem append_example_com_ne_empty (s : String) : s ++ ".example.com" ≠ "" := by
  intro h
  have h2 := congrArg String.data h
  rw [String.data_append] at h2
  have h3 := (List.append_eq_nil.mp h2).2
  exact absurd h3 (by decide)

/-- Claim C3: every record produced by `mock_generate_places` has
    `has_website = 1` exactly when `website` holds a non-empty string and
    `has_website = 0` exactly when `website` is absent; and `load_all`
    returns only rows with that same consistency, for every table whose
    rows are program-written (consistent) or pre-migration legacy rows. -/
theorem has_website_consistent (lbl : String) (clat clng radius : Real) (inds : List String)
    (n pct : Nat) (draws : Nat → Draw) (now : String) (rows : List DBRow) :
    (∀ p ∈ mock_generate_places lbl clat clng radius inds n pct draws now,
      (p.has_website = 1 ↔ ∃ s, p.website = some s ∧ s ≠ "") ∧
      (p.has_website = 0 ↔ p.website = none)) ∧
    ((∀ r ∈ rows, dbRowConsistent r ∨ dbRowLegacy r) →
      ∀ r ∈ load_all rows, dbRowConsistent r) := by
  constructor
  · intro p hp
    obtain ⟨i, hi, rfl⟩ := List.mem_map.mp hp
    simp only [mock_place_has_website, mock_place_website]
    by_cases hc : (draws i).websiteRoll ≤ pct
    · rw [if_pos hc, if_pos hc]
      constructor
      · constructor
        · intro _
          exact ⟨_, rfl, append_example_com_ne_empty _⟩
        · intro _
          rfl
      · constructor
        · intro h10
          exact absurd h10 (by norm_num)
        · intro hnone
          exact absurd hnone (by simp)
    · rw [if_neg hc, if_neg hc]
      simp
  · intro hwf r hr
    obtain ⟨q, hq, rfl⟩ := List.mem_map.mp hr
    rcases hwf q hq with hcons | hleg
    · rcases hcons with ⟨h1, s, hs, hne⟩ | ⟨h0, hn⟩
      · exact Or.inl ⟨by simp [h1], s, by simpa using hs, hne⟩
      · exact Or.inr ⟨by simp [h0], by simpa using hn⟩
    · rcases hleg with ⟨hn, hw⟩
      rcases hw with hwn | ⟨s, hs, hne⟩
      · exact Or.inr ⟨by simp [hn, hwn], by simpa using hwn⟩
      · exact Or.inl ⟨by simp [hn, hs], s, by simpa using hs, hne⟩

theorem has_website_consistent_witness :
    (mock_place ("G") 0 0 0 ([]) 70 ("t") d0 ∈
      mock_generate_places ("G") 0 0 0 ([]) 1 70 (fun _ => d0) ("t")) ∧
    ((mock_place ("G") 0 0 0 ([]) 70 ("t") d0).has_website = 1 ↔
      ∃ s, (mock_place ("G") 0 0 0 ([]) 70 ("t") d0).website = some s ∧ s ≠ "") ∧
    ((mock_place ("G") 0 0 0 ([]) 70 ("t") d0).has_website = 0 ↔
      (mock_place ("G") 0 0 0 ([]) 70 ("t") d0).website = none) ∧
    (∀ r ∈ [row0], dbRowConsistent r ∨ dbRowLegacy r) ∧
    (∀ r ∈ load_all [row0], dbRowConsistent r) := by
  have hmem : mock_place ("G") 0 0 0 ([]) 70 ("t") d0 ∈
      mock_generate_places ("G") 0 0 0 ([]) 1 70 (fun _ => d0) ("t") := by
    rw [show mock_generate_places ("G") 0 0 0 ([]) 1 70 (fun _ => d0) ("t") =
      [mock_place ("G") 0 0 0 ([]) 70 ("t") d0] from rfl]
    exact List.mem_singleton.mpr rfl
  have hwf : ∀ r ∈ [row0], dbRowConsistent r ∨ dbRowLegacy r := by
    intro r hr
    rw [List.mem_singleton] at hr
    subst hr
    exact Or.inr ⟨rfl, Or.inl rfl⟩
  have hmain := has_website_consistent ("G") 0 0 0 ([]) 1 70 (fun _ => d0) ("t") [row0]
  exact ⟨hmem, (hmain.1 _ hmem).1, (hmain.1 _ hmem).2, hwf, hmain.2 hwf⟩

/-! ### Claim C8 -/

/-- Claim C8: for every count and all random draws satisfying the
    `random.randint(1, 100)` contract (`websiteRoll ≥ 1`),
    `mock_generate_places` called with `pct_with_website = 0` yields only
    records with `has_website = 0` and no website value. -/
theorem pct_zero_no_website (lbl : String) (clat clng radius : Real) (inds : List String)
    (n : Nat) (draws : Nat → Draw) (now : String)
    (hroll : ∀ i, 1 ≤ (draws i).websiteRoll) :
    ∀ p ∈ mock_generate_places lbl clat clng radius inds n 0 draws now,
      p.has_website = 0 ∧ p.website = none := by
  intro p hp
  obtain ⟨i, hi, rfl⟩ := List.mem_map.mp hp
  have hc : ¬ ((draws i).websiteRoll ≤ 0) := by
    have := hroll i
    omega
  simp only [mock_place_has_website, mock_place_website]
  rw [if_neg hc, if_neg hc]
  exact ⟨rfl, rfl⟩

theorem pct_zero_no_website_witness :
    (∀ i : Nat, 1 ≤ (((fun _ => d0) : Nat → Draw) i).websiteRoll) ∧
    (mock_place ("G") 0 0 0 ([]) 0 ("t") d0).has_website = 0 ∧
    (mock_place ("G") 0 0 0 ([]) 0 ("t") d0).website = none := by
  have hroll : ∀ i : Nat, 1 ≤ (((fun _ => d0) : Nat → Draw) i).websiteRoll := by
    intro i
    show 1 ≤ d0.websiteRoll
    decide
  have hmem : mock_place ("G") 0 0 0 ([]) 0 ("t") d0 ∈
      mock_generate_places ("G") 0 0 0 ([]) 1 0 (fun _ => d0) ("t") := by
    rw [show mock_generate_places ("G") 0 0 0 ([]) 1 0 (fun _ => d0) ("t") =
      [mock_place ("G") 0 0 0 ([]) 0 ("t") d0] from rfl]
    exact List.mem_singleton.mpr rfl
  exact ⟨hroll, pct_zero_no_website ("G") 0 0 0 ([]) 1 (fun _ => d0) ("t") hroll _ hmem⟩

/-! ### Claim C9 -/

/-- Claim C9: `upsert_place` appends the new row when no row carries its
    `place_id`, and on a key conflict replaces the conflicting row in place
    with the new row (all non-key columns overwritten); in either case every
    row with a different `place_id` is left entirely unchanged at its
    position. -/
theorem upsert_place_semantics (db : List DBRow) (row : DBRow) :
    ((∀ r ∈ db, r.place_id ≠ row.place_id) → upsert_place db row = db ++ [row]) ∧
    ((∃ r ∈ db, r.place_id = row.place_id) →
      (upsert_place db row).length = db.length ∧
      ∀ (i : Nat) (r : DBRow), db[i]? = some r →
        (r.place_id ≠ row.place_id → (upsert_place db row)[i]? = some r) ∧
        (r.place_id = row.place_id → (upsert_place db row)[i]? = some row)) := by
  constructor
  · intro h
    unfold upsert_place
    rw [if_neg]
    intro hany
    obtain ⟨r, hr, hb⟩ := List.any_eq_true.mp hany
    exact h r hr (beq_iff_eq.mp hb)
  · rintro ⟨r0, hr0, hid⟩
    have hany : db.any (fun r => r.place_id == row.place_id) = true :=
      List.any_eq_true.mpr ⟨r0, hr0, beq_iff_eq.mpr hid⟩
    unfold upsert_place
    rw [if_pos hany]
    refine ⟨by simp, ?_⟩
    intro i r hir
    constructor
    · intro hne
      have hcond : ¬ ((r.place_id == row.place_id) = true) := fun hc => hne (beq_iff_eq.mp hc)
      simp only [List.getElem?_map, hir, Option.map_some']
      rw [if_neg hcond]
    · intro heq
      simp only [List.getElem?_map, hir, Option.map_some']
      rw [if_pos (beq_iff_eq.mpr heq)]

theorem upsert_place_semantics_witness :
    ((∀ r ∈ [rowA], r.place_id ≠ rowB.place_id) ∧
      upsert_place [rowA] rowB = [rowA] ++ [rowB]) ∧
    ((∃ r ∈ [rowA, rowB], r.place_id = rowB2.place_id) ∧
      (upsert_place [rowA, rowB] rowB2).length = 2 ∧
      rowA.place_id ≠ rowB2.place_id ∧ (upsert_place [rowA, rowB] rowB2)[0]? = some rowA ∧
      rowB.place_id = rowB2.place_id ∧ (upsert_place [rowA, rowB] rowB2)[1]? = some rowB2) := by
  have hne : ∀ r ∈ [rowA], r.place_id ≠ rowB.place_id := by
    intro r hr
    rw [List.mem_singleton] at hr
    subst hr
    decide
  have hex : ∃ r ∈ [rowA, rowB], r.place_id = rowB2.place_id := ⟨rowB, by simp, rfl⟩
  have h1 := (upsert_place_semantics [rowA] rowB).1 hne
  have h2 := (upsert_place_semantics [rowA, rowB] rowB2).2 hex
  exact ⟨⟨hne, h1⟩, hex, h2.1, by decide, (h2.2 0 rowA rfl).1 (by decide), rfl,
    (h2.2 1 rowB rfl).2 rfl⟩

/-! ### Claim C10 -/

theorem random_id_data (tail : List Char) :
    (random_id ("mock") tail).data = ("mock_").data ++ tail := by
  unfold random_id
  simp only [String.data_append]
  rfl

/-- Claim C10: every identifier built by `random_id` with the default
    `"mock"` prefix from a `random.choices` draw (20 characters out of the
    lowercase-ASCII-plus-digits alphabet) is the literal `mock_` followed by
    those 20 characters — 25 characters total, tail drawn from the
    alphabet — and every `place_id` of a generated record is such an
    identifier, built from the iteration's drawn tail. -/
theorem random_id_format (tail : List Char) (h1 : tail.length = 20)
    (h2 : ∀ c ∈ tail, c ∈ idAlphabet)
    (lbl : String) (clat clng radius : Real) (inds : List String) (n pct : Nat)
    (draws : Nat → Draw) (now : String) :
    (random_id ("mock") tail).length = 25 ∧
    (random_id ("mock") tail).data = ("mock_").data ++ tail ∧
    (∀ c ∈ (random_id ("mock") tail).data.drop 5, c ∈ idAlphabet) ∧
    (∀ p ∈ mock_generate_places lbl clat clng radius inds n pct draws now,
      ∃ i, i < n ∧ p.place_id = random_id ("mock") (draws i).idTail) := by
  refine ⟨?_, random_id_data tail, ?_, ?_⟩
  · have hlen : (random_id ("mock") tail).length = (random_id ("mock") tail).data.length := rfl
    rw [hlen, random_id_data, List.length_append, h1]
    rfl
  · rw [random_id_data, show (5 : Nat) = ("mock_").data.length from rfl, List.drop_left]
    exact h2
  · intro p hp
    obtain ⟨i, hi, rfl⟩ := List.mem_map.mp hp
    exact ⟨i, List.mem_range.mp hi, mock_place_place_id lbl clat clng radius inds pct now
      (draws i)⟩

theorem random_id_format_witness :
    (List.replicate 20 'a').length = 20 ∧ (∀ c ∈ List.replicate 20 'a', c ∈ idAlphabet) ∧
    (random_id ("mock") (List.replicate 20 'a')).length = 25 := by
  refine ⟨by decide, by decide, ?_⟩
  exact (random_id_format (List.replicate 20 'a') (by decide) (by decide) ("") 0 0 0 ([]) 0 0
    (fun _ => d0) ("")).1
